import Mathlib

/- Verification of the 996.MAP geocoding pipeline (scripts/2-geocode.py and
   scripts/3-generate-geojson.py), shallowly embedded in Lean.

   Modelling conventions:
   * Numeric coordinate values are modelled as rationals (`Rat`); the scripts
     perform no arithmetic on them (the GCJ-02 → WGS84 conversion is a
     pass-through), so only equality of values matters.
   * Wall-clock time is modelled as an integer count of seconds (`Env.now`,
     one fixed instant per run); ISO-8601 timestamp strings are related to it
     by the parse oracle `Env.parseTs`, standing for `datetime.fromisoformat`
     (`none` means that call raises `ValueError`).  `Env.nowStr` stands for
     `datetime.now().isoformat()`.
   * The HTTP layer of the Gaode geocoding API is modelled by the oracle
     `Env.net`: for a request address it returns either `none` (network or
     transport failure, non-2xx status, malformed body — all of which reach
     the same exception handlers in `geocode_address`) or the parsed body.
   * `Env.parseLoc` stands for `lng, lat = map(float, location.split(","))`:
     the two parsed numbers, or `none` when that statement raises (wrong
     number of comma-separated fields, unparsable number) and control moves
     past the `return` (the surrounding handler returns `None`).
   * The geocode error-log file `data/geocode_errors.log` is modelled as the
     list `GeocoderState.errorLog`, one element per appended line.
   * `time.sleep` calls of the batch driver are modelled as emitted pause
     events `(1-based record index, duration in milliseconds)`.
-/

/-- Parsed body of a Gaode geocode API response: the `status` field and the
`location` strings of the `geocodes` array (a geocode with no `location`
field contributes the empty string, as in `geocodes[0].get("location", "")`). -/
structure GaodeResponse where
  status : String
  geocodes : List String
deriving DecidableEq

/-- One entry of the persistent geocode cache `data/geocache.json`, i.e.
`{"coords": …, "timestamp": …, "source": …}`.  A missing `timestamp` field is
modelled as `""`, matching `cached_data.get("timestamp", "")`. -/
structure CacheEntry where
  coords : List Rat
  timestamp : String
  source : String
deriving DecidableEq

/-- The result dict of `Geocoder.geocode_company`. -/
structure GeocodeOutcome where
  coordinates : Option (List Rat)
  geocode_source : String
  geocode_timestamp : String
deriving DecidableEq

/-- The mutable state of a `Geocoder` object (`api_key`, `cache` and the
three counters), together with the error-log file the script appends to. -/
structure GeocoderState where
  api_key : String
  cache : List (String × CacheEntry)
  error_count : Nat
  success_count : Nat
  cache_hit_count : Nat
  errorLog : List String
deriving DecidableEq

/-- The ambient world of one run: the parsing and network oracles and the
current wall-clock time (frozen for the run; the script calls
`datetime.now()` repeatedly, but sub-run clock drift is below the 90-day
granularity everything is measured against). -/
structure Env where
  parseTs : String → Option Int
  parseLoc : String → Option (Rat × Rat)
  net : String → Option GaodeResponse
  now : Int
  nowStr : String

/-- Embeds `Geocoder.get_cache_key`. -/
def get_cache_key (company_name city : String) : String :=
  city ++ "@" ++ company_name

/-- Python dict assignment `self.cache[cache_key] = entry` on the flat cache
mapping, modelled on an association list: the new binding replaces any
previous binding of the key. -/
def cacheInsert (cache : List (String × CacheEntry)) (key : String)
    (entry : CacheEntry) : List (String × CacheEntry) :=
  (key, entry) :: cache.filter (fun p => p.1 != key)

/-- Embeds `Geocoder.get_cached_coordinates`: cache lookup guarded by the 90-day
freshness window.  Returns the entry (or `none`) together with the updated
geocoder state, since `cache_hit_count` is incremented inside this method.
Here `(env.now - cache_date).fdiv 86400` is
`(datetime.now() - cache_date).days` (floor division, as for Python
`timedelta.days`). -/
def get_cached_coordinates (env : Env) (g : GeocoderState)
    (company_name city : String) : Option CacheEntry × GeocoderState :=
  match List.lookup (get_cache_key company_name city) g.cache with
  | none => (none, g)
  | some cached_data =>
    if cached_data.timestamp = "" then (none, g)
    else
      match env.parseTs cached_data.timestamp with
      | none => (none, g) -- fromisoformat raised; swallowed by the bare handler
      | some cache_date =>
        if (env.now - cache_date).fdiv 86400 ≤ 90 then
          (some cached_data, { g with cache_hit_count := g.cache_hit_count + 1 })
        else
          (none, g) -- stale: ignored, logged, left in place

/-- Embeds `Geocoder.cache_coordinates`. -/
def cache_coordinates (env : Env) (g : GeocoderState)
    (company_name city : String) (coordinates : List Rat) (source : String) :
    GeocoderState :=
  let entry : CacheEntry :=
    { coords := coordinates, timestamp := env.nowStr, source := source }
  { g with cache := cacheInsert g.cache (get_cache_key company_name city) entry }

/-- Simplified GCJ-02 → WGS84 conversion `gcj02_to_wgs84`; a pass-through
placeholder in the script. -/
def gcj02_to_wgs84 (lng lat : Rat) : Rat × Rat :=
  (lng, lat)

/-- Embeds `Geocoder.geocode_address`: one lookup against the Gaode provider for a
free-text address.  Every exception path (request failure, bad status,
unparsable location) collapses to `none`; on success the provider
coordinates are converted with `gcj02_to_wgs84` and tagged `"exact"`. -/
def geocode_address (env : Env) (api_key address : String) :
    Option (List Rat × String) :=
  if api_key = "" then none
  else
    match env.net address with
    | none => none
    | some data =>
      if data.status = "1" ∧ data.geocodes ≠ [] then
        match data.geocodes.head? with
        | none => none -- unreachable: geocodes is non-empty here
        | some location =>
          if location ≠ "" then
            match env.parseLoc location with
            | none => none
            | some (lng, lat) =>
              some ([(gcj02_to_wgs84 lng lat).1, (gcj02_to_wgs84 lng lat).2],
                "exact")
          else none
      else none

/-- Embeds `Geocoder.geocode_company`: the resolution policy
cache → exact address → city fallback → failure.  Every path of the Python
function returns a dict, so the result is a `GeocodeOutcome` (not an option)
paired with the updated state. -/
def geocode_company (env : Env) (g : GeocoderState)
    (company_name city : String) : GeocodeOutcome × GeocoderState :=
  match get_cached_coordinates env g company_name city with
  | (some cached, g1) =>
    ({ coordinates := some cached.coords, geocode_source := "cache",
       geocode_timestamp := cached.timestamp }, g1)
  | (none, g1) =>
    match geocode_address env g1.api_key (city ++ company_name) with
    | some (coordinates, source) =>
      let g2 := cache_coordinates env g1 company_name city coordinates source
      ({ coordinates := some coordinates, geocode_source := source,
         geocode_timestamp := env.nowStr },
       { g2 with success_count := g2.success_count + 1 })
    | none =>
      match geocode_address env g1.api_key city with
      | some (coordinates, _source) =>
        let g2 := cache_coordinates env g1 company_name city coordinates
          "city_fallback"
        ({ coordinates := some coordinates, geocode_source := "city_fallback",
           geocode_timestamp := env.nowStr },
         { g2 with success_count := g2.success_count + 1 })
      | none =>
        ({ coordinates := none, geocode_source := "failed",
           geocode_timestamp := env.nowStr },
         { g1 with error_count := g1.error_count + 1,
                   errorLog := g1.errorLog ++
                     [env.nowStr ++ " - " ++ company_name ++ " - " ++ city] })

/-- The two fields of an input record that the geocoding stage reads
(`company["company_name"]`, `company["city"]`). -/
structure Company where
  company_name : String
  city : String
deriving DecidableEq

/-- The per-record loop of `main` in 2-geocode.py.  `i` is the 0-based index
of the first remaining record, as produced by `enumerate`.  The result is
the enriched output sequence (`company.copy()` updated with the geocode
result, modelled as the pair of the record and its outcome), the final
geocoder state, and the emitted pause events: `(i + 1, 2000)` for the
`time.sleep(2)` after every full batch and `(i + 1, 500)` for the
unconditional `time.sleep(0.5)`, in program order. -/
def mainLoop (env : Env) (batchSize : Nat) (g : GeocoderState) (i : Nat) :
    List Company →
      List (Company × GeocodeOutcome) × GeocoderState × List (Nat × Nat)
  | [] => ([], g, [])
  | company :: rest =>
    let step := geocode_company env g company.company_name company.city
    let pauses :=
      (if (i + 1) % batchSize = 0 then [(i + 1, 2000)] else []) ++ [(i + 1, 500)]
    let tail := mainLoop env batchSize step.2 (i + 1) rest
    ((company, step.1) :: tail.1, tail.2.1, pauses ++ tail.2.2)

/-- Embeds `main` of 2-geocode.py: the exit code and, for a completed run, the
enriched records plus the final geocoder state (`none` means the run aborted
before any record was processed).  `cache0` is what `load_cache` produced
(an arbitrary mapping; `[]` on a missing or corrupt cache file), `companies`
is what `load_companies` produced (`[]` on a missing or corrupt input file).
The error-log file is cleared before the loop, so the run starts with an
empty `errorLog`. -/
def mainRun (env : Env) (apiKey : String) (batchSize : Nat)
    (cache0 : List (String × CacheEntry)) (companies : List Company) :
    Nat × Option (List (Company × GeocodeOutcome) × GeocoderState) :=
  if apiKey = "" then (1, none)
  else if companies = [] then (1, none)
  else
    let g0 : GeocoderState :=
      { api_key := apiKey, cache := cache0, error_count := 0,
        success_count := 0, cache_hit_count := 0, errorLog := [] }
    let run := mainLoop env batchSize g0 0 companies
    (0, some (run.1, run.2.1))

/-- The pause-event schedule of the batch driver in isolation: the events
emitted by processing `n` records starting at 0-based index `i` with the
given batch size. -/
def batchPauses (batchSize i : Nat) : Nat → List (Nat × Nat)
  | 0 => []
  | n + 1 =>
    ((if (i + 1) % batchSize = 0 then [(i + 1, 2000)] else []) ++ [(i + 1, 500)])
      ++ batchPauses batchSize (i + 1) n

/-- COLOR_SCHEME of 3-generate-geojson.py, as a lookup on its keys. -/
def COLOR_SCHEME (key : String) : String :=
  if key = "996" then "#ff5252"
  else if key = "997" then "#ff5252"
  else if key = "007" then "#ff5252"
  else if key = "大小周" then "#ffab40"
  else if key = "995" then "#ffd740"
  else if key = "10106" then "#ffd740"
  else "#bdbdbd" -- the "default" key and any other lookup

/-- Substring occurrence on character lists, the Python test `pat in s` for
strings: some suffix of `l` starts with `pat`. -/
def strContainsAux (pat : List Char) : List Char → Bool
  | [] => pat.isPrefixOf []
  | c :: cs => pat.isPrefixOf (c :: cs) || strContainsAux pat cs

/-- Python `pat in s` on strings. -/
def strContains (s pat : String) : Bool :=
  strContainsAux pat.data s.data

/-- Python `str.lower()`, modelled characterwise. -/
def strLower (s : String) : String :=
  ⟨s.data.map Char.toLower⟩

/-- Embeds `get_work_schedule_color` of 3-generate-geojson.py. -/
def get_work_schedule_color (work_schedule : String) : String :=
  if work_schedule = "" then COLOR_SCHEME "default"
  else
    if strContains (strLower work_schedule) "996"
        || strContains (strLower work_schedule) "997"
        || strContains (strLower work_schedule) "007" then
      COLOR_SCHEME "996"
    else if strContains work_schedule "大小周" then
      COLOR_SCHEME "大小周"
    else if strContains (strLower work_schedule) "995"
        || strContains (strLower work_schedule) "10106" then
      COLOR_SCHEME "995"
    else
      COLOR_SCHEME "default"

/-- The fields of an enriched company record that 3-generate-geojson.py
reads; a field missing from the JSON object is modelled by the default that
`company.get(…)` supplies (`""` or `[]`). -/
structure EnrichedCompany where
  company_name : String
  city : String
  company_url : String
  work_schedule : String
  evidence_links : List String
  coordinates : Option (List Rat)
deriving DecidableEq

/-- The `properties` object of a generated GeoJSON Feature. -/
structure FeatureProperties where
  city : String
  name : String
  url : String
  schedule : String
  evidence : List String
  color : String
  update_date : String
deriving DecidableEq

/-- A GeoJSON Feature as built by `create_geojson_feature`; the `type`
fields are the constants `"Feature"` and `"Point"`, so only the geometry
coordinates and the properties are modelled. -/
structure Feature where
  coordinates : List Rat
  properties : FeatureProperties
deriving DecidableEq

/-- Embeds `create_geojson_feature`; `today` is
`datetime.now().strftime("%Y-%m-%d")`.  The guard
`if not coordinates or len(coordinates) != 2: return None` makes the result
`none` for a `null`, empty, or wrong-arity coordinates value. -/
def create_geojson_feature (today : String) (company : EnrichedCompany) :
    Option Feature :=
  match company.coordinates with
  | none => none
  | some coords =>
    if coords = [] ∨ coords.length ≠ 2 then none
    else
      some { coordinates := coords,
             properties :=
               { city := company.city,
                 name := company.company_name,
                 url := company.company_url,
                 schedule := company.work_schedule,
                 evidence := company.evidence_links.take 3,
                 color := get_work_schedule_color company.work_schedule,
                 update_date := today } }

/-- Embeds `create_geojson_collection`: the `features` list and the skipped count,
in input order. -/
def create_geojson_collection (today : String) :
    List EnrichedCompany → List Feature × Nat
  | [] => ([], 0)
  | company :: rest =>
    let tail := create_geojson_collection today rest
    match create_geojson_feature today company with
    | some feature => (feature :: tail.1, tail.2)
    | none => (tail.1, tail.2 + 1)

/-- Sample response used by concrete instantiations. -/
def respOK : GaodeResponse :=
  { status := "1", geocodes := ["121.47,31.23"] }

/-- Sample environment in which every network request fails. -/
def envFail : Env :=
  { parseTs := fun _ => none, parseLoc := fun _ => none,
    net := fun _ => none, now := 0, nowStr := "2026-10-12T00:00:00" }

/-- Sample environment in which only the exact address "XAcme" resolves. -/
def envExact : Env :=
  { parseTs := fun s => if s = "2026-10-12T00:00:00" then some 1000 else none,
    parseLoc := fun s => if s = "121.47,31.23" then some (121, 31) else none,
    net := fun a => if a = "XAcme" then some respOK else none,
    now := 1000, nowStr := "2026-10-12T00:00:00" }

/-- Sample environment in which only the bare city "X" resolves. -/
def envCity : Env :=
  { envExact with net := fun a => if a = "X" then some respOK else none }

/-- Sample initial geocoder state: valid key, empty cache. -/
def gInit : GeocoderState :=
  { api_key := "k", cache := [], error_count := 0, success_count := 0,
    cache_hit_count := 0, errorLog := [] }

/-- Sample cache entry whose timestamp string parses to instant 0 under
`envAt`. -/
def entryT0 : CacheEntry :=
  { coords := [121, 31], timestamp := "T0", source := "exact" }

/-- Sample environment whose clock reads `now` (seconds) and that parses
only the timestamp string of `entryT0`, to instant 0. -/
def envAt (now : Int) : Env :=
  { parseTs := fun s => if s = "T0" then some 0 else none,
    parseLoc := fun _ => none, net := fun _ => none,
    now := now, nowStr := "TN" }

/-- Sample state whose cache holds `entryT0` for company "Acme" in city
"X". -/
def gWithT0 : GeocoderState :=
  { gInit with cache := [("X@Acme", entryT0)] }

/-- Sample state whose cache holds an entry with an empty timestamp for
company "Acme" in city "X". -/
def gBadTs : GeocoderState :=
  { gInit with cache := [("X@Acme", CacheEntry.mk [1, 2] "" "exact")] }

/-- Well-formedness of a cache mapping: every entry holds a coordinate pair.
This is the CacheEntry shape of the data model, and `cache_coordinates`
only ever writes such entries (see `cacheWF_insert`). -/
def cacheWF (cache : List (String × CacheEntry)) : Prop :=
  ∀ key e, List.lookup key cache = some e → e.coords.length = 2

/-- Lookup of a key distinct from the erased one is unaffected. -/
theorem lookup_filter_ne (k key : String) (h : key ≠ k) :
    ∀ cache : List (String × CacheEntry),
      List.lookup key (cache.filter (fun p => p.1 != k)) = List.lookup key cache := by
  intro cache
  induction cache with
  | nil => rfl
  | cons p t ih =>
    obtain ⟨a, b⟩ := p
    by_cases ha : a = k
    · subst ha
      have h1 : ((a, b).1 != a) = false := by simp
      have h2 : (key == a) = false := by simp [h]
      simp [List.filter, h1, List.lookup, h2, ih]
    · have h1 : ((a, b).1 != k) = true := by simp [ha]
      by_cases hk : key = a
      · subst hk
        simp [List.filter, h1, List.lookup]
      · have h2 : (key == a) = false := by simp [hk]
        simp [List.filter, h1, List.lookup, h2, ih]

/-- Lookup after `cacheInsert` at the inserted key. -/
theorem lookup_cacheInsert_self (cache : List (String × CacheEntry))
    (k : String) (v : CacheEntry) :
    List.lookup k (cacheInsert cache k v) = some v := by
  simp [cacheInsert, List.lookup]

/-- Lookup after `cacheInsert` at another key. -/
theorem lookup_cacheInsert_ne (cache : List (String × CacheEntry))
    (k key : String) (v : CacheEntry) (h : key ≠ k) :
    List.lookup key (cacheInsert cache k v) = List.lookup key cache := by
  have h2 : (key == k) = false := by simp [h]
  simp [cacheInsert, List.lookup, h2, lookup_filter_ne k key h]

/-- Inserting a coordinate pair preserves cache well-formedness. -/
theorem cacheWF_insert (cache : List (String × CacheEntry)) (k : String)
    (v : CacheEntry) (hwf : cacheWF cache) (hv : v.coords.length = 2) :
    cacheWF (cacheInsert cache k v) := by
  intro key e hl
  by_cases hk : key = k
  · subst hk
    rw [lookup_cacheInsert_self] at hl
    cases hl
    exact hv
  · rw [lookup_cacheInsert_ne cache k key v hk] at hl
    exact hwf key e hl

/-- Case analysis for `get_cached_coordinates`: either a miss that leaves the
state untouched, or a hit on a present, fresh entry that bumps only the
cache-hit counter. -/
theorem get_cached_eq (env : Env) (g : GeocoderState) (n c : String) :
    get_cached_coordinates env g n c = (none, g) ∨
    ∃ e, List.lookup (get_cache_key n c) g.cache = some e ∧
      e.timestamp ≠ "" ∧
      (∃ t, env.parseTs e.timestamp = some t ∧
        (env.now - t).fdiv 86400 ≤ 90) ∧
      get_cached_coordinates env g n c =
        (some e, { g with cache_hit_count := g.cache_hit_count + 1 }) := by
  unfold get_cached_coordinates
  cases hl : List.lookup (get_cache_key n c) g.cache with
  | none => exact Or.inl rfl
  | some e =>
    by_cases ht : e.timestamp = ""
    · left
      simp [ht]
    · cases hp : env.parseTs e.timestamp with
      | none => left; simp [ht, hp]
      | some t =>
        by_cases hd : (env.now - t).fdiv 86400 ≤ 90
        · right
          exact ⟨e, rfl, ht, ⟨t, hp, hd⟩, by simp [ht, hp, hd]⟩
        · left
          simp [ht, hp, hd]

/-- A miss leaves the whole geocoder state unchanged. -/
theorem get_cached_miss_pair (env : Env) (g : GeocoderState) (n c : String)
    (h : (get_cached_coordinates env g n c).1 = none) :
    get_cached_coordinates env g n c = (none, g) := by
  rcases get_cached_eq env g n c with he | ⟨e, _, _, _, he⟩
  · exact he
  · rw [he] at h
    exact absurd h (by simp)

/-- Inversion of a cache hit: the entry is present and fresh, and the state
change is exactly a cache-hit-counter bump. -/
theorem get_cached_hit_inv (env : Env) (g : GeocoderState) (n c : String)
    (e : CacheEntry) (h : (get_cached_coordinates env g n c).1 = some e) :
    List.lookup (get_cache_key n c) g.cache = some e ∧
    e.timestamp ≠ "" ∧
    (∃ t, env.parseTs e.timestamp = some t ∧ (env.now - t).fdiv 86400 ≤ 90) ∧
    (get_cached_coordinates env g n c).2 =
      { g with cache_hit_count := g.cache_hit_count + 1 } := by
  rcases get_cached_eq env g n c with he | ⟨e', hl, ht, hf, he⟩
  · rw [he] at h
    exact absurd h (by simp)
  · rw [he] at h ⊢
    obtain rfl : e' = e := by simpa using h
    exact ⟨hl, ht, hf, rfl⟩

/-- Hit on a present fresh entry, as a direct equation. -/
theorem get_cached_of_fresh (env : Env) (g : GeocoderState) (n c : String)
    (e : CacheEntry) (t : Int)
    (hl : List.lookup (get_cache_key n c) g.cache = some e)
    (ht : e.timestamp ≠ "") (hp : env.parseTs e.timestamp = some t)
    (hd : (env.now - t).fdiv 86400 ≤ 90) :
    get_cached_coordinates env g n c =
      (some e, { g with cache_hit_count := g.cache_hit_count + 1 }) := by
  unfold get_cached_coordinates
  rw [hl]
  simp [ht, hp, hd]

/-- Miss on an absent, bad-timestamp, or stale entry, as a direct equation;
the three disjuncts are: the key is absent; the timestamp is missing/empty
or unparsable (the swallowed exception path); or the entry is stale. -/
theorem get_cached_of_miss (env : Env) (g : GeocoderState) (n c : String)
    (h : List.lookup (get_cache_key n c) g.cache = none ∨
      (∃ e, List.lookup (get_cache_key n c) g.cache = some e ∧
        (e.timestamp = "" ∨ env.parseTs e.timestamp = none)) ∨
      (∃ e t, List.lookup (get_cache_key n c) g.cache = some e ∧
        e.timestamp ≠ "" ∧ env.parseTs e.timestamp = some t ∧
        ¬ (env.now - t).fdiv 86400 ≤ 90)) :
    get_cached_coordinates env g n c = (none, g) := by
  unfold get_cached_coordinates
  rcases h with hl | ⟨e, hl, hbad⟩ | ⟨e, t, hl, ht, hp, hd⟩
  · rw [hl]
  · rw [hl]
    rcases hbad with ht | hp
    · simp [ht]
    · by_cases ht : e.timestamp = ""
      · simp [ht]
      · simp [ht, hp]
  · rw [hl]
    simp [ht, hp, hd]

/-- Inversion of a successful `geocode_address`: the source tag is always
`"exact"` and the coordinates are the converted pair of the parsed first
location of the provider response. -/
theorem geocode_address_some_inv (env : Env) (api_key address : String)
    (coords : List Rat) (src : String)
    (h : geocode_address env api_key address = some (coords, src)) :
    src = "exact" ∧
    ∃ data location lng lat,
      env.net address = some data ∧
      data.geocodes.head? = some location ∧
      env.parseLoc location = some (lng, lat) ∧
      coords = [(gcj02_to_wgs84 lng lat).1, (gcj02_to_wgs84 lng lat).2] := by
  unfold geocode_address at h
  split at h
  · exact absurd h (by simp)
  cases hnet : env.net address with
  | none => rw [hnet] at h; exact absurd h (by simp)
  | some data =>
    simp only [hnet] at h
    split at h
    case isFalse => exact absurd h (by simp)
    cases hh : data.geocodes.head? with
    | none => simp only [hh] at h; exact absurd h (by simp)
    | some location =>
      simp only [hh] at h
      split at h
      case isFalse => exact absurd h (by simp)
      cases hp : env.parseLoc location with
      | none => simp only [hp] at h; exact absurd h (by simp)
      | some q =>
        obtain ⟨lng, lat⟩ := q
        simp only [hp] at h
        have h1 := Option.some.inj h
        exact ⟨(congrArg Prod.snd h1).symm, data, location, lng, lat, rfl, hh,
          hp, (congrArg Prod.fst h1).symm⟩

/-- A successful `geocode_address` returns a two-element coordinate list. -/
theorem geocode_address_some_shape (env : Env) (api_key address : String)
    (coords : List Rat) (src : String)
    (h : geocode_address env api_key address = some (coords, src)) :
    src = "exact" ∧ ∃ lng lat, coords = [lng, lat] := by
  obtain ⟨hs, _, _, lng, lat, _, _, _, hc⟩ :=
    geocode_address_some_inv env api_key address coords src h
  exact ⟨hs, lng, lat, hc⟩

/-- Cache-hit branch of the resolution policy. -/
theorem geocode_company_hit (env : Env) (g g' : GeocoderState) (n c : String)
    (e : CacheEntry) (h : get_cached_coordinates env g n c = (some e, g')) :
    geocode_company env g n c =
      ({ coordinates := some e.coords, geocode_source := "cache",
         geocode_timestamp := e.timestamp }, g') := by
  unfold geocode_company
  rw [h]

/-- Exact-attempt branch of the resolution policy. -/
theorem geocode_company_exact (env : Env) (g : GeocoderState) (n c : String)
    (coords : List Rat) (src : String)
    (hmiss : get_cached_coordinates env g n c = (none, g))
    (ha : geocode_address env g.api_key (c ++ n) = some (coords, src)) :
    geocode_company env g n c =
      ({ coordinates := some coords, geocode_source := src,
         geocode_timestamp := env.nowStr },
       { g with
          cache := cacheInsert g.cache (get_cache_key n c)
            (CacheEntry.mk coords env.nowStr src),
          success_count := g.success_count + 1 }) := by
  unfold geocode_company
  rw [hmiss]
  simp only [ha, cache_coordinates]

/-- City-fallback branch of the resolution policy. -/
theorem geocode_company_fallback (env : Env) (g : GeocoderState) (n c : String)
    (coords : List Rat) (src : String)
    (hmiss : get_cached_coordinates env g n c = (none, g))
    (ha : geocode_address env g.api_key (c ++ n) = none)
    (hb : geocode_address env g.api_key c = some (coords, src)) :
    geocode_company env g n c =
      ({ coordinates := some coords, geocode_source := "city_fallback",
         geocode_timestamp := env.nowStr },
       { g with
          cache := cacheInsert g.cache (get_cache_key n c)
            (CacheEntry.mk coords env.nowStr "city_fallback"),
          success_count := g.success_count + 1 }) := by
  unfold geocode_company
  rw [hmiss]
  simp only [ha, hb, cache_coordinates]

/-- Failure branch of the resolution policy. -/
theorem geocode_company_failed (env : Env) (g : GeocoderState) (n c : String)
    (hmiss : get_cached_coordinates env g n c = (none, g))
    (ha : geocode_address env g.api_key (c ++ n) = none)
    (hb : geocode_address env g.api_key c = none) :
    geocode_company env g n c =
      ({ coordinates := none, geocode_source := "failed",
         geocode_timestamp := env.nowStr },
       { g with
          error_count := g.error_count + 1,
          errorLog := g.errorLog ++
            [env.nowStr ++ " - " ++ n ++ " - " ++ c] }) := by
  unfold geocode_company
  rw [hmiss]
  simp only [ha, hb]

/-- A list of length two is a pair. -/
theorem list_eq_pair_of_length_two {α : Type} (l : List α) (h : l.length = 2) :
    ∃ a b, l = [a, b] := by
  cases l with
  | nil => simp at h
  | cons a t =>
    cases t with
    | nil => simp at h
    | cons b u =>
      cases u with
      | nil => exact ⟨a, b, rfl⟩
      | cons x v => simp at h

/-- One resolution step keeps the cache well-formed and produces an outcome
whose coordinates are `none` or a pair. -/
theorem geocode_company_shape_wf (env : Env) (g : GeocoderState) (n c : String)
    (hwf : cacheWF g.cache) :
    ((geocode_company env g n c).1.coordinates = none ∨
      ∃ a b, (geocode_company env g n c).1.coordinates = some [a, b]) ∧
    cacheWF ((geocode_company env g n c).2).cache := by
  rcases get_cached_eq env g n c with hm | ⟨e, hl, _, _, he⟩
  · cases ha : geocode_address env g.api_key (c ++ n) with
    | some r =>
      obtain ⟨coords, src⟩ := r
      rw [geocode_company_exact env g n c coords src hm ha]
      obtain ⟨-, lng, lat, hc⟩ := geocode_address_some_shape _ _ _ _ _ ha
      subst hc
      exact ⟨Or.inr ⟨lng, lat, rfl⟩, cacheWF_insert _ _ _ hwf rfl⟩
    | none =>
      cases hb : geocode_address env g.api_key c with
      | some r =>
        obtain ⟨coords, src⟩ := r
        rw [geocode_company_fallback env g n c coords src hm ha hb]
        obtain ⟨-, lng, lat, hc⟩ := geocode_address_some_shape _ _ _ _ _ hb
        subst hc
        exact ⟨Or.inr ⟨lng, lat, rfl⟩, cacheWF_insert _ _ _ hwf rfl⟩
      | none =>
        rw [geocode_company_failed env g n c hm ha hb]
        exact ⟨Or.inl rfl, hwf⟩
  · rw [geocode_company_hit env g _ n c e he]
    refine ⟨?_, hwf⟩
    obtain ⟨a, b, hab⟩ := list_eq_pair_of_length_two e.coords (hwf _ e hl)
    exact Or.inr ⟨a, b, by rw [hab]⟩

/-- The batch driver enriches the records in input order: projecting the
record component of the output gives back the input sequence. -/
theorem mainLoop_map_fst (env : Env) (bs : Nat) :
    ∀ (cs : List Company) (g : GeocoderState) (i : Nat),
      ((mainLoop env bs g i cs).1).map Prod.fst = cs := by
  intro cs
  induction cs with
  | nil => intro g i; rfl
  | cons c rest ih => intro g i; simp [mainLoop, ih]

/-- Every outcome the batch driver attaches has pair-or-null coordinates,
provided the starting cache is well-formed. -/
theorem mainLoop_shape (env : Env) (bs : Nat) :
    ∀ (cs : List Company) (g : GeocoderState) (i : Nat), cacheWF g.cache →
      ∀ p ∈ (mainLoop env bs g i cs).1,
        p.2.coordinates = none ∨ ∃ a b, p.2.coordinates = some [a, b] := by
  intro cs
  induction cs with
  | nil => intro g i hwf p hp; simp [mainLoop] at hp
  | cons c rest ih =>
    intro g i hwf p hp
    simp only [mainLoop, List.mem_cons] at hp
    rcases hp with hp | hp
    · subst hp
      exact (geocode_company_shape_wf env g c.company_name c.city hwf).1
    · exact ih (geocode_company env g c.company_name c.city).2 (i + 1)
        (geocode_company_shape_wf env g c.company_name c.city hwf).2 p hp

/-- The pause events of the batch driver depend only on the batch size, the
starting index and the number of records. -/
theorem mainLoop_pauses (env : Env) (bs : Nat) :
    ∀ (cs : List Company) (g : GeocoderState) (i : Nat),
      (mainLoop env bs g i cs).2.2 = batchPauses bs i cs.length := by
  intro cs
  induction cs with
  | nil => intro g i; rfl
  | cons c rest ih => intro g i; simp [mainLoop, batchPauses, ih]

/-- C1: for every input record the resolution policy produces exactly one
outcome whose coordinates are a 2-element pair or null (never any other
shape), and the batch driver preserves the length and order of the input
sequence.  The hypothesis is the CacheEntry shape invariant of the data
model — every persisted entry carries a coordinate pair — which holds of
every cache the program itself writes (`cacheWF_insert`) and of the empty
cache a fresh run starts from. -/
theorem claim1_outcome_shape_and_order (env : Env) (bs : Nat)
    (g : GeocoderState) (i : Nat) (cs : List Company)
    (hwf : cacheWF g.cache) :
    ((mainLoop env bs g i cs).1).map Prod.fst = cs ∧
    ((mainLoop env bs g i cs).1).length = cs.length ∧
    ∀ p ∈ (mainLoop env bs g i cs).1,
      p.2.coordinates = none ∨ ∃ a b, p.2.coordinates = some [a, b] := by
  refine ⟨mainLoop_map_fst env bs cs g i, ?_, mainLoop_shape env bs cs g i hwf⟩
  have h := congrArg List.length (mainLoop_map_fst env bs cs g i)
  rwa [List.length_map] at h

/-- C1 witness at a concrete input. -/
theorem claim1_witness :
    ((mainLoop envExact 50 gInit 0 [Company.mk "Acme" "X"]).1).map Prod.fst =
      [Company.mk "Acme" "X"] ∧
    ((mainLoop envExact 50 gInit 0 [Company.mk "Acme" "X"]).1).length = 1 ∧
    ∀ p ∈ (mainLoop envExact 50 gInit 0 [Company.mk "Acme" "X"]).1,
      p.2.coordinates = none ∨ ∃ a b, p.2.coordinates = some [a, b] :=
  claim1_outcome_shape_and_order envExact 50 gInit 0 [Company.mk "Acme" "X"]
    (fun _ _ h => Option.noConfusion h)

/-- C2: on a cache miss where the exact attempt (city concatenated with
company name) fails and the city-only fallback succeeds, the outcome source
is `city_fallback` (never `exact`), the cache entry written for the
identity has source `city_fallback`, and the success counter is incremented
by 1. -/
theorem claim2_city_fallback (env : Env) (g : GeocoderState) (n c : String)
    (coords : List Rat) (src : String)
    (hmiss : (get_cached_coordinates env g n c).1 = none)
    (ha : geocode_address env g.api_key (c ++ n) = none)
    (hb : geocode_address env g.api_key c = some (coords, src)) :
    (geocode_company env g n c).1.geocode_source = "city_fallback" ∧
    (geocode_company env g n c).1.geocode_source ≠ "exact" ∧
    (geocode_company env g n c).1.coordinates = some coords ∧
    List.lookup (get_cache_key n c) ((geocode_company env g n c).2).cache =
      some (CacheEntry.mk coords env.nowStr "city_fallback") ∧
    ((geocode_company env g n c).2).success_count = g.success_count + 1 := by
  have h1 := geocode_company_fallback env g n c coords src
    (get_cached_miss_pair env g n c hmiss) ha hb
  rw [h1]
  exact ⟨rfl, (by decide : ("city_fallback" : String) ≠ "exact"), rfl,
    lookup_cacheInsert_self _ _ _, rfl⟩

/-- C2 witness at a concrete input. -/
theorem claim2_witness :
    (geocode_company envCity gInit "Acme" "X").1.geocode_source =
      "city_fallback" ∧
    (geocode_company envCity gInit "Acme" "X").1.geocode_source ≠ "exact" ∧
    (geocode_company envCity gInit "Acme" "X").1.coordinates = some [121, 31] ∧
    List.lookup (get_cache_key "Acme" "X")
        ((geocode_company envCity gInit "Acme" "X").2).cache =
      some (CacheEntry.mk [121, 31] envCity.nowStr "city_fallback") ∧
    ((geocode_company envCity gInit "Acme" "X").2).success_count =
      gInit.success_count + 1 :=
  claim2_city_fallback envCity gInit "Acme" "X" [121, 31] "exact"
    (by decide) (by decide) (by decide)

/-- C3 as written is refuted by the day-floor arithmetic: an entry whose
timestamp lies 90 days and 1 hour in the past is "more than 90 days before
now", yet `timedelta.days` floors the age to 90, `90 <= 90` holds, and the
lookup returns the entry instead of treating it as absent. -/
theorem claim3_counterexample :
    (envAt (90 * 86400 + 3600)).now - 0 > 90 * 86400 ∧
    (envAt (90 * 86400 + 3600)).parseTs entryT0.timestamp = some 0 ∧
    (get_cached_coordinates (envAt (90 * 86400 + 3600)) gWithT0 "Acme" "X").1 =
      some entryT0 := by
  exact ⟨by decide, rfl, by decide⟩

/-- C3 amended: the lookup treats an entry as absent exactly when the floor
of its age in days exceeds 90 (in particular an entry exactly 91 days old is
a miss and one 89 days old is a hit), and in either case the stored mapping
is left unchanged — an expired entry is not deleted. -/
theorem claim3_expiry_floor_days (env : Env) (g : GeocoderState)
    (n c : String) (e : CacheEntry) (t : Int)
    (hl : List.lookup (get_cache_key n c) g.cache = some e)
    (ht : e.timestamp ≠ "")
    (hp : env.parseTs e.timestamp = some t) :
    ((env.now - t).fdiv 86400 > 90 →
      get_cached_coordinates env g n c = (none, g)) ∧
    ((env.now - t).fdiv 86400 ≤ 90 →
      get_cached_coordinates env g n c =
        (some e, { g with cache_hit_count := g.cache_hit_count + 1 })) ∧
    ((get_cached_coordinates env g n c).2).cache = g.cache := by
  refine ⟨?_, ?_, ?_⟩
  · intro hd
    exact get_cached_of_miss env g n c
      (Or.inr (Or.inr ⟨e, t, hl, ht, hp, not_le.mpr hd⟩))
  · intro hd
    exact get_cached_of_fresh env g n c e t hl ht hp hd
  · by_cases hd : (env.now - t).fdiv 86400 ≤ 90
    · rw [get_cached_of_fresh env g n c e t hl ht hp hd]
    · rw [get_cached_of_miss env g n c
        (Or.inr (Or.inr ⟨e, t, hl, ht, hp, hd⟩))]

/-- C3 witness: the amended law at 91 days (miss) and at 89 days (hit). -/
theorem claim3_witness :
    get_cached_coordinates (envAt (91 * 86400)) gWithT0 "Acme" "X" =
      (none, gWithT0) ∧
    get_cached_coordinates (envAt (89 * 86400)) gWithT0 "Acme" "X" =
      (some entryT0,
       { gWithT0 with cache_hit_count := gWithT0.cache_hit_count + 1 }) :=
  ⟨(claim3_expiry_floor_days (envAt (91 * 86400)) gWithT0 "Acme" "X" entryT0 0
      (by decide) (by decide) rfl).1 (by decide),
   (claim3_expiry_floor_days (envAt (89 * 86400)) gWithT0 "Acme" "X" entryT0 0
      (by decide) (by decide) rfl).2.1 (by decide)⟩

/-- C5: on a cache miss where both geocoding attempts fail, the outcome is
the terminal `{coordinates: null, source: failed}`, the error counter is
incremented by exactly 1, exactly one failure record (timestamp, company
name, city) is appended to the error log, and the cache mapping and the
other counters are unchanged. -/
theorem claim5_failure_path (env : Env) (g : GeocoderState) (n c : String)
    (hmiss : (get_cached_coordinates env g n c).1 = none)
    (ha : geocode_address env g.api_key (c ++ n) = none)
    (hb : geocode_address env g.api_key c = none) :
    (geocode_company env g n c).1 = GeocodeOutcome.mk none "failed" env.nowStr ∧
    ((geocode_company env g n c).2).error_count = g.error_count + 1 ∧
    ((geocode_company env g n c).2).errorLog =
      g.errorLog ++ [env.nowStr ++ " - " ++ n ++ " - " ++ c] ∧
    ((geocode_company env g n c).2).cache = g.cache ∧
    ((geocode_company env g n c).2).success_count = g.success_count ∧
    ((geocode_company env g n c).2).cache_hit_count = g.cache_hit_count := by
  have h1 := geocode_company_failed env g n c
    (get_cached_miss_pair env g n c hmiss) ha hb
  rw [h1]
  exact ⟨rfl, rfl, rfl, rfl, rfl, rfl⟩

/-- C5 witness at a concrete input. -/
theorem claim5_witness :
    (geocode_company envFail gInit "Acme" "X").1 =
      GeocodeOutcome.mk none "failed" envFail.nowStr ∧
    ((geocode_company envFail gInit "Acme" "X").2).error_count =
      gInit.error_count + 1 ∧
    ((geocode_company envFail gInit "Acme" "X").2).errorLog =
      gInit.errorLog ++ [envFail.nowStr ++ " - " ++ "Acme" ++ " - " ++ "X"] ∧
    ((geocode_company envFail gInit "Acme" "X").2).cache = gInit.cache ∧
    ((geocode_company envFail gInit "Acme" "X").2).success_count =
      gInit.success_count ∧
    ((geocode_company envFail gInit "Acme" "X").2).cache_hit_count =
      gInit.cache_hit_count :=
  claim5_failure_path envFail gInit "Acme" "X" (by decide) (by decide)
    (by decide)

/-- C6: every successful `geocode_address` result is the `gcj02_to_wgs84`
image of the coordinate pair parsed from the first location of the provider,
not the raw provider values handed back unconverted (the conversion is the
implemented — if placeholder — `gcj02_to_wgs84` step). -/
theorem claim6_wgs84_conversion (env : Env) (api_key address : String)
    (coords : List Rat) (src : String)
    (h : geocode_address env api_key address = some (coords, src)) :
    ∃ data location lng lat,
      env.net address = some data ∧
      data.geocodes.head? = some location ∧
      env.parseLoc location = some (lng, lat) ∧
      coords = [(gcj02_to_wgs84 lng lat).1, (gcj02_to_wgs84 lng lat).2] :=
  (geocode_address_some_inv env api_key address coords src h).2

/-- C6 witness at a concrete input. -/
theorem claim6_witness :
    ∃ data location lng lat,
      envExact.net "XAcme" = some data ∧
      data.geocodes.head? = some location ∧
      envExact.parseLoc location = some (lng, lat) ∧
      [(121 : Rat), 31] = [(gcj02_to_wgs84 lng lat).1, (gcj02_to_wgs84 lng lat).2] :=
  claim6_wgs84_conversion envExact "k" "XAcme" [121, 31] "exact" (by decide)

/-- C9: a cached entry whose timestamp is missing/empty or unparsable is
treated as a miss: the lookup returns `none` without raising (the model is
total; the Python bare handler swallows the parse error), the state — in
particular `cache_hit_count` — is unchanged, and the resolution policy
proceeds to the geocoding attempts, so the outcome source is never
`cache`. -/
theorem claim9_bad_timestamp_miss (env : Env) (g : GeocoderState)
    (n c : String) (e : CacheEntry)
    (hl : List.lookup (get_cache_key n c) g.cache = some e)
    (hbad : e.timestamp = "" ∨ env.parseTs e.timestamp = none) :
    get_cached_coordinates env g n c = (none, g) ∧
    (geocode_company env g n c).1.geocode_source ≠ "cache" := by
  have hm := get_cached_of_miss env g n c (Or.inr (Or.inl ⟨e, hl, hbad⟩))
  refine ⟨hm, ?_⟩
  cases ha : geocode_address env g.api_key (c ++ n) with
  | some r =>
    obtain ⟨coords, src⟩ := r
    rw [geocode_company_exact env g n c coords src hm ha]
    obtain ⟨hs, -⟩ := geocode_address_some_shape _ _ _ _ _ ha
    subst hs
    exact (by decide : ("exact" : String) ≠ "cache")
  | none =>
    cases hb : geocode_address env g.api_key c with
    | some r =>
      obtain ⟨coords, src⟩ := r
      rw [geocode_company_fallback env g n c coords src hm ha hb]
      exact (by decide : ("city_fallback" : String) ≠ "cache")
    | none =>
      rw [geocode_company_failed env g n c hm ha hb]
      exact (by decide : ("failed" : String) ≠ "cache")

/-- C9 witness at a concrete input (empty timestamp in the cache). -/
theorem claim9_witness :
    get_cached_coordinates envFail gBadTs "Acme" "X" = (none, gBadTs) ∧
    (geocode_company envFail gBadTs "Acme" "X").1.geocode_source ≠ "cache" :=
  claim9_bad_timestamp_miss envFail gBadTs "Acme" "X"
    (CacheEntry.mk [1, 2] "" "exact") (by decide) (Or.inl rfl)

/-- C4 as written is refuted when the first run fails: with every network
request failing and an empty fresh cache, the first run produces a `failed`
outcome, writes nothing to the cache, and the second run in succession is
again `failed`, not `cache`. -/
theorem claim4_counterexample :
    (geocode_company envFail gInit "Acme" "X").1.geocode_source = "failed" ∧
    (geocode_company envFail
        ((geocode_company envFail gInit "Acme" "X").2) "Acme" "X").1.geocode_source
      ≠ "cache" := by
  exact ⟨by decide, by decide⟩

/-- C4 amended: for every identity whose first resolution does not end in
the `failed` outcome, a second resolution in immediate succession (same
frozen clock; `env.parseTs env.nowStr = some env.now` is the
isoformat/fromisoformat round trip) is a cache hit: there is a cache entry
for the identity such that the second run — under an arbitrary replacement
network oracle, which formalises that no geocoding lookup is issued —
returns source `cache`, the coordinates of the first run, and the cached
timestamp, and increments only the cache-hit counter of the state the first
run left. -/
theorem claim4_idempotence_on_success (env : Env) (g : GeocoderState)
    (n c : String)
    (hts : env.nowStr ≠ "")
    (hpar : env.parseTs env.nowStr = some env.now)
    (hnf : (geocode_company env g n c).1.geocode_source ≠ "failed") :
    ∃ e : CacheEntry,
      List.lookup (get_cache_key n c) ((geocode_company env g n c).2).cache =
        some e ∧
      some e.coords = (geocode_company env g n c).1.coordinates ∧
      ∀ net2 : String → Option GaodeResponse,
        geocode_company { env with net := net2 }
            ((geocode_company env g n c).2) n c =
          ({ coordinates := some e.coords, geocode_source := "cache",
             geocode_timestamp := e.timestamp },
           { (geocode_company env g n c).2 with
              cache_hit_count :=
                ((geocode_company env g n c).2).cache_hit_count + 1 }) := by
  have hd0 : ∀ net2 : String → Option GaodeResponse,
      (({ env with net := net2 } : Env).now - env.now).fdiv 86400 ≤ 90 := by
    intro net2
    show (env.now - env.now).fdiv 86400 ≤ 90
    rw [Int.sub_self]
    decide
  rcases get_cached_eq env g n c with hm | ⟨e, hl, ht, ⟨t, hp, hd⟩, he⟩
  · cases ha : geocode_address env g.api_key (c ++ n) with
    | some r =>
      obtain ⟨coords, src⟩ := r
      have h1 := geocode_company_exact env g n c coords src hm ha
      refine ⟨CacheEntry.mk coords env.nowStr src, ?_, ?_, ?_⟩
      · rw [h1]
        exact lookup_cacheInsert_self _ _ _
      · rw [h1]
      · intro net2
        have hl2 : List.lookup (get_cache_key n c)
            ((geocode_company env g n c).2).cache =
            some (CacheEntry.mk coords env.nowStr src) := by
          rw [h1]
          exact lookup_cacheInsert_self _ _ _
        exact geocode_company_hit { env with net := net2 }
          ((geocode_company env g n c).2) _ n c
          (CacheEntry.mk coords env.nowStr src)
          (get_cached_of_fresh { env with net := net2 }
            ((geocode_company env g n c).2) n c
            (CacheEntry.mk coords env.nowStr src) env.now hl2 hts hpar
            (hd0 net2))
    | none =>
      cases hb : geocode_address env g.api_key c with
      | some r =>
        obtain ⟨coords, src⟩ := r
        have h1 := geocode_company_fallback env g n c coords src hm ha hb
        refine ⟨CacheEntry.mk coords env.nowStr "city_fallback", ?_, ?_, ?_⟩
        · rw [h1]
          exact lookup_cacheInsert_self _ _ _
        · rw [h1]
        · intro net2
          have hl2 : List.lookup (get_cache_key n c)
              ((geocode_company env g n c).2).cache =
              some (CacheEntry.mk coords env.nowStr "city_fallback") := by
            rw [h1]
            exact lookup_cacheInsert_self _ _ _
          exact geocode_company_hit { env with net := net2 }
            ((geocode_company env g n c).2) _ n c
            (CacheEntry.mk coords env.nowStr "city_fallback")
            (get_cached_of_fresh { env with net := net2 }
              ((geocode_company env g n c).2) n c
              (CacheEntry.mk coords env.nowStr "city_fallback") env.now hl2 hts
              hpar (hd0 net2))
      | none =>
        exact absurd (by rw [geocode_company_failed env g n c hm ha hb]) hnf
  · have h1 := geocode_company_hit env g _ n c e he
    refine ⟨e, ?_, ?_, ?_⟩
    · rw [h1]
      exact hl
    · rw [h1]
    · intro net2
      have hl2 : List.lookup (get_cache_key n c)
          ((geocode_company env g n c).2).cache = some e := by
        rw [h1]
        exact hl
      exact geocode_company_hit { env with net := net2 }
        ((geocode_company env g n c).2) _ n c e
        (get_cached_of_fresh { env with net := net2 }
          ((geocode_company env g n c).2) n c e t hl2 ht hp hd)

/-- C4 witness at a concrete input whose first run succeeds exactly. -/
theorem claim4_witness :
    ∃ e : CacheEntry,
      List.lookup (get_cache_key "Acme" "X")
          ((geocode_company envExact gInit "Acme" "X").2).cache = some e ∧
      some e.coords = (geocode_company envExact gInit "Acme" "X").1.coordinates ∧
      ∀ net2 : String → Option GaodeResponse,
        geocode_company { envExact with net := net2 }
            ((geocode_company envExact gInit "Acme" "X").2) "Acme" "X" =
          ({ coordinates := some e.coords, geocode_source := "cache",
             geocode_timestamp := e.timestamp },
           { (geocode_company envExact gInit "Acme" "X").2 with
              cache_hit_count :=
                ((geocode_company envExact gInit "Acme" "X").2).cache_hit_count
                  + 1 }) :=
  claim4_idempotence_on_success envExact gInit "Acme" "X" (by decide)
    (by decide) (by decide)

/-- C7: over 51 records with batch size 50, the long 2-second pause occurs
exactly once, tagged to record 50 (emitted immediately after that record is
processed), and the 0.5-second per-record pause occurs after every one of
the 51 records. -/
theorem claim7_batch_pauses (env : Env) (g : GeocoderState)
    (cs : List Company) (h : cs.length = 51) :
    ((mainLoop env 50 g 0 cs).2.2).filter (fun p => decide (p.2 = 2000)) =
      [(50, 2000)] ∧
    ∀ r < 52, 1 ≤ r → (r, 500) ∈ (mainLoop env 50 g 0 cs).2.2 := by
  rw [mainLoop_pauses env 50 cs g 0, h]
  exact ⟨by decide, by decide⟩

/-- C7 witness at a concrete input of 51 records. -/
theorem claim7_witness :
    ((mainLoop envFail 50 gInit 0
        (List.replicate 51 (Company.mk "A" "B"))).2.2).filter
      (fun p => decide (p.2 = 2000)) = [(50, 2000)] ∧
    ∀ r < 52, 1 ≤ r →
      (r, 500) ∈
        (mainLoop envFail 50 gInit 0
          (List.replicate 51 (Company.mk "A" "B"))).2.2 :=
  claim7_batch_pauses envFail gInit (List.replicate 51 (Company.mk "A" "B"))
    (by decide)

/-- C8: a missing (empty) API credential aborts the run with exit code 1
before any record is processed; an empty loaded record set also fails the
run; otherwise the run processes every record — regardless of how many
per-record outcomes are `failed` (the environment, hence the failure count,
is arbitrary here) — and completes with exit code 0. -/
theorem claim8_startup_and_exit (env : Env) (apiKey : String) (bs : Nat)
    (cache0 : List (String × CacheEntry)) (cs : List Company) :
    (apiKey = "" → mainRun env apiKey bs cache0 cs = (1, none)) ∧
    (cs = [] → mainRun env apiKey bs cache0 cs = (1, none)) ∧
    (apiKey ≠ "" → cs ≠ [] →
      (mainRun env apiKey bs cache0 cs).1 = 0 ∧
      ∃ out gFin, (mainRun env apiKey bs cache0 cs).2 = some (out, gFin) ∧
        out.map Prod.fst = cs) := by
  refine ⟨?_, ?_, ?_⟩
  · intro h
    simp [mainRun, h]
  · intro h
    subst h
    simp [mainRun]
  · intro h1 h2
    unfold mainRun
    rw [if_neg h1, if_neg h2]
    exact ⟨rfl, _, _, rfl, mainLoop_map_fst env bs cs _ 0⟩

/-- C8 witness: a run whose single record fails still exits 0 and outputs
the record. -/
theorem claim8_witness :
    (mainRun envFail "k" 50 [] [Company.mk "A" "B"]).1 = 0 ∧
    ∃ out gFin,
      (mainRun envFail "k" 50 [] [Company.mk "A" "B"]).2 = some (out, gFin) ∧
      out.map Prod.fst = [Company.mk "A" "B"] :=
  (claim8_startup_and_exit envFail "k" 50 [] [Company.mk "A" "B"]).2.2
    (by decide) (by decide)

/-- C10: an enriched record whose coordinates are null or not a 2-element
list yields no Feature, and the FeatureCollection built with the record
present equals the one built with it absent (the record is silently skipped,
counted only in the skip counter), never included with null geometry. -/
theorem claim10_geojson_skip (today : String)
    (pre post : List EnrichedCompany) (company : EnrichedCompany)
    (h : ∀ l, company.coordinates = some l → l.length ≠ 2) :
    create_geojson_feature today company = none ∧
    (create_geojson_collection today (pre ++ company :: post)).1 =
      (create_geojson_collection today (pre ++ post)).1 ∧
    (create_geojson_collection today (pre ++ company :: post)).2 =
      (create_geojson_collection today (pre ++ post)).2 + 1 := by
  have hf : create_geojson_feature today company = none := by
    unfold create_geojson_feature
    cases hc : company.coordinates with
    | none => rfl
    | some l =>
      have hlen := h l hc
      simp [hlen]
  refine ⟨hf, ?_⟩
  induction pre with
  | nil =>
    simp [create_geojson_collection, hf]
  | cons p t ih =>
    simp only [List.cons_append, create_geojson_collection]
    cases hp : create_geojson_feature today p <;>
      simp [hp, ih.1, ih.2]

/-- C10 witness: a failed-outcome record (null coordinates) next to a good
one. -/
theorem claim10_witness :
    create_geojson_feature "2026-10-12"
        (EnrichedCompany.mk "Bad" "X" "" "996" [] none) = none ∧
    (create_geojson_collection "2026-10-12"
        ([] ++ EnrichedCompany.mk "Bad" "X" "" "996" [] none ::
          [EnrichedCompany.mk "Good" "X" "" "" [] (some [121, 31])])).1 =
      (create_geojson_collection "2026-10-12"
        ([] ++ [EnrichedCompany.mk "Good" "X" "" "" [] (some [121, 31])])).1 ∧
    (create_geojson_collection "2026-10-12"
        ([] ++ EnrichedCompany.mk "Bad" "X" "" "996" [] none ::
          [EnrichedCompany.mk "Good" "X" "" "" [] (some [121, 31])])).2 =
      (create_geojson_collection "2026-10-12"
        ([] ++ [EnrichedCompany.mk "Good" "X" "" "" [] (some [121, 31])])).2
        + 1 :=
  claim10_geojson_skip "2026-10-12" []
    [EnrichedCompany.mk "Good" "X" "" "" [] (some [121, 31])]
    (EnrichedCompany.mk "Bad" "X" "" "996" [] none)
    (fun _ hl => Option.noConfusion hl)
